import Mathlib

/-!
Verification of the secure-code-execution-blueprint core against its
natural-language specification.  The definitions below are a shallow
embedding of the Rust sources:

* `code-exec/src/sandbox.rs`   — sandbox supervisor (`Sandbox::execute`,
  `Sandbox::check_resource_usage`),
* `code-exec/src/executor.rs`  — `CodeExecutor::execute` result wrapping,
* `code-exec/src/types.rs`     — `Language`, `ExecutionStatus`, limits,
* `code-exec/src/server.rs`    — HTTP result mapping,
* `code-exec/src/error.rs`     — the error taxonomy with its Display strings,
* `code-exec/src/languages/{rust,python}.rs` — compile/run stage contracts,
* `code-exec/ldm/src/analyzer/rust.rs` — the Rust dependency analyzer.

Stateful host interaction (spawning, `getrusage`, timers) is made explicit:
the outcome of waiting on the child, the sampled rusage values and the
elapsed wall-clock seconds are parameters of the model, and the supervisor
logic that classifies them is translated faithfully.
-/

deriving instance DecidableEq for Except

namespace CodeExec

/-- Host platform distinguishing the two `cfg(target_os)` branches that
appear in `sandbox.rs`. -/
inductive Platform
  | linux
  | macos
deriving DecidableEq, Repr

/-- `ResourceLimits` from `code-exec/src/types.rs` (lines 130-141):
cpu seconds (`u32`), memory / disk / file-size bytes (`u64`), process
count (`u32`).  Machine integers are modelled as `Nat` with explicit
wrap-around where the code casts. -/
structure ResourceLimits where
  cpu_time : Nat
  memory : Nat
  disk_space : Nat
  processes : Nat
  file_size : Nat
deriving DecidableEq, Repr

/-- `ResourceLimits::default()` from `types.rs` lines 143-153. -/
def ResourceLimits.default : ResourceLimits :=
  { cpu_time := 30
    memory := 512 * 1024 * 1024
    disk_space := 100 * 1024 * 1024
    processes := 10
    file_size := 10 * 1024 * 1024 }

/-- The error enum of `code-exec/src/error.rs`.  `Io` carries the display
string of the wrapped `std::io::Error`. -/
inductive Error
  | UnsupportedLanguage (s : String)
  | CompilationError (s : String)
  | ExecutionError (s : String)
  | Timeout (secs : Nat)
  | System (s : String)
  | InvalidDependency (s : String)
  | ResourceLimit (s : String)
  | Sandbox (s : String)
  | Io (s : String)
  | ResourceExceeded (s : String)
  | ResourceLimitError (s : String)
deriving DecidableEq, Repr

/-- The `Display` strings attached by `thiserror` in `error.rs`. -/
def Error.toStr : Error → String
  | .UnsupportedLanguage s => "Language not supported: " ++ s
  | .CompilationError s => "Compilation failed: " ++ s
  | .ExecutionError s => "Execution failed: " ++ s
  | .Timeout secs => "Timeout after " ++ toString secs ++ " seconds"
  | .System s => "System error: " ++ s
  | .InvalidDependency s => "Invalid dependency specification: " ++ s
  | .ResourceLimit s => "Resource limit exceeded: " ++ s
  | .Sandbox s => "Sandbox error: " ++ s
  | .Io s => "IO error: " ++ s
  | .ResourceExceeded s => "Resource exceeded: " ++ s
  | .ResourceLimitError s => "Resource limit error: " ++ s

/-- Discriminator: is this the `Error::Sandbox` variant? -/
def Error.isSandbox : Error → Bool
  | .Sandbox _ => true
  | _ => false

/-- Discriminator: is this the `Error::Timeout` variant? -/
def Error.isTimeoutErr : Error → Bool
  | .Timeout _ => true
  | _ => false

/-- Discriminator: is this the `Error::ResourceExceeded` variant? -/
def Error.isResourceExceeded : Error → Bool
  | .ResourceExceeded _ => true
  | _ => false

/-- `ExecutionStatus` from `types.rs` lines 106-114. -/
inductive ExecutionStatus
  | Success
  | Error
  | Timeout
  | CompilationError
  | SystemError
deriving DecidableEq, Repr

/-- `ExecutionStatus::to_string` from `types.rs` lines 116-126. -/
def ExecutionStatus.toStr : ExecutionStatus → String
  | .Success => "success"
  | .Error => "error"
  | .Timeout => "timeout"
  | .CompilationError => "compilation_error"
  | .SystemError => "system_error"

/-- Interpret an `i64` value as `u64` the way an `as u64` cast does
(two's-complement wrap modulo `2 ^ 64`). -/
def u64ofI64 (x : Int) : Nat := (x % (2 : Int) ^ 64).toNat

/-- One sample of `getrusage(RUSAGE_CHILDREN)`: the `libc` fields the
supervisor reads, as signed host integers. -/
structure Rusage where
  max_rss : Int
  minor_page_faults : Int
  major_page_faults : Int
  block_reads : Int
  block_writes : Int
  voluntary_context_switches : Int
  involuntary_context_switches : Int
  user_time_sec : Int
  user_time_usec : Int
  system_time_sec : Int
  system_time_usec : Int
deriving DecidableEq, Repr

/-- `ProcessStats` from `types.rs` lines 66-90.  Durations are carried in
microseconds (`Duration::from_micros` in the source); `execution_time`
is carried in microseconds as well. -/
structure ProcessStats where
  max_rss : Nat
  minor_page_faults : Nat
  major_page_faults : Nat
  block_reads : Nat
  block_writes : Nat
  voluntary_context_switches : Nat
  involuntary_context_switches : Nat
  user_time_micros : Nat
  system_time_micros : Nat
  execution_time_micros : Nat
deriving DecidableEq, Repr

/-- Assembly of `ProcessStats` from a rusage sample, `sandbox.rs` lines
239-259: every counter is cast `as u64`; the CPU durations are
`tv_sec * 1_000_000 + tv_usec` microseconds (computed in `i64`, cast
`as u64`). -/
def buildProcessStats (u : Rusage) (execMicros : Nat) : ProcessStats :=
  { max_rss := u64ofI64 u.max_rss
    minor_page_faults := u64ofI64 u.minor_page_faults
    major_page_faults := u64ofI64 u.major_page_faults
    block_reads := u64ofI64 u.block_reads
    block_writes := u64ofI64 u.block_writes
    voluntary_context_switches := u64ofI64 u.voluntary_context_switches
    involuntary_context_switches := u64ofI64 u.involuntary_context_switches
    user_time_micros := u64ofI64 (u.user_time_sec * 1000000 + u.user_time_usec)
    system_time_micros := u64ofI64 (u.system_time_sec * 1000000 + u.system_time_usec)
    execution_time_micros := execMicros }

/-- A Unix `std::process::ExitStatus`: the child either exited with a
code or was terminated by a signal. -/
inductive ExitStatus
  | exited (code : Int)
  | signaled (sig : Int)
deriving DecidableEq, Repr

/-- `ExitStatus::success()`: true exactly when the exit code is 0. -/
def ExitStatus.success : ExitStatus → Bool
  | .exited 0 => true
  | _ => false

/-- `ExitStatus::signal()` (`std::os::unix::process::ExitStatusExt`):
the terminating signal, when there is one. -/
def ExitStatus.signal : ExitStatus → Option Int
  | .signaled s => some s
  | _ => none

/-- The `Display` rendering of a Unix `ExitStatus`, used when the
supervisor formats the non-zero-exit error message. -/
def ExitStatus.display : ExitStatus → String
  | .exited c => "exit status: " ++ toString c
  | .signaled s => "signal: " ++ toString s

/-- Outcome of `time::timeout(timeout, child.wait_with_output())` in
`sandbox.rs` line 188: the wait completed with an exit status and the
captured stdout/stderr, the wait itself failed, or the timeout fired. -/
inductive WaitOutcome
  | completed (status : ExitStatus) (stdout stderr : String)
  | procError (msg : String)
  | timedOut
deriving DecidableEq, Repr

/-- Externally visible supervisor actions performed on the timeout path
(`sandbox.rs` lines 191-205): `kill <pid>` sends signal 15 (TERM, the
`kill` default), `kill -9 <pid>` sends signal 9 (KILL), and the bounded
grace sleep between them. -/
inductive SupAction
  | sendSignal (pid : Nat) (sig : Nat)
  | sleepMs (ms : Nat)
deriving DecidableEq, Repr

/-- The memory half of `Sandbox::check_resource_usage` (`sandbox.rs`
lines 71-87): on Linux the children max-RSS (reported in KB, multiplied
by 1024 with `u64` wrap-around) is compared against the memory cap; on
macOS the check is skipped by an explicit `cfg(target_os = "macos")`
branch because `getrusage` values are unreliable there. -/
def check_memory_usage (platform : Platform) (maxRssRaw : Int)
    (limits : ResourceLimits) : Except Error Unit :=
  match platform with
  | .linux =>
    if u64ofI64 maxRssRaw * 1024 % 2 ^ 64 > limits.memory then
      .error (.ResourceExceeded
        ("Memory limit exceeded: " ++
          toString (u64ofI64 maxRssRaw * 1024 % 2 ^ 64) ++ " > " ++
          toString limits.memory))
    else .ok ()
  | .macos => .ok ()

/-- `Sandbox::check_resource_usage`, `sandbox.rs` lines 54-90.

`elapsedSecs?` mirrors `self.start_time`: when it is set, the elapsed
wall-clock seconds (`elapsed.as_secs()`, cast `as u32`, hence the
`% 2 ^ 32`) are compared against the CPU cap with an early return;
otherwise and afterwards the platform-dependent memory check runs. -/
def check_resource_usage (platform : Platform) (elapsedSecs? : Option Nat)
    (maxRssRaw : Int) (limits : ResourceLimits) : Except Error Unit :=
  match elapsedSecs? with
  | some elapsed =>
    if elapsed % 2 ^ 32 > limits.cpu_time then
      .error (.ResourceExceeded
        ("CPU time limit exceeded: " ++ toString elapsed ++ " > " ++
          toString limits.cpu_time))
    else check_memory_usage platform maxRssRaw limits
  | none => check_memory_usage platform maxRssRaw limits

/-- The message built at `sandbox.rs` lines 228-232 for a non-zero exit
that was not classified as a timeout. -/
def exitFailureMsg (st : ExitStatus) (stderr : String) : String :=
  "Process exited with status: " ++ st.display ++ " (stderr: " ++ stderr ++ ")"

/-- The wait/classification phase of `Sandbox::execute`, `sandbox.rs`
lines 186-261, as a function of the host-observed data.  Returns the
supervisor actions performed on the timeout path together with the
result.

* timeout fired: `kill` (TERM), 10 ms grace sleep, `kill -9` (KILL) when
  the child id is known, then `Error::Timeout(timeout.as_secs())`;
* wait error: `Error::Sandbox("Process error: …")`;
* wait completed: first `check_resource_usage` (with `start_time` set),
  then the signal-9/15 timeout classification for unsuccessful exits,
  then the non-zero-exit sandbox error; on success the stdout/stderr
  strings and the assembled `ProcessStats`. -/
def sandboxExecuteResult (platform : Platform) (limits : ResourceLimits)
    (childId : Option Nat) (timeoutSecs : Nat) (outcome : WaitOutcome)
    (elapsedSecs : Nat) (usage : Rusage) (execMicros : Nat) :
    List SupAction × Except Error (String × String × ProcessStats) :=
  match outcome with
  | .timedOut =>
    let acts :=
      match childId with
      | some pid => [SupAction.sendSignal pid 15, SupAction.sleepMs 10,
          SupAction.sendSignal pid 9]
      | none => []
    (acts, .error (.Timeout timeoutSecs))
  | .procError m => ([], .error (.Sandbox ("Process error: " ++ m)))
  | .completed st out err =>
    match check_resource_usage platform (some elapsedSecs) usage.max_rss limits with
    | .error e => ([], .error e)
    | .ok _ =>
      if st.success then
        ([], .ok (out, err, buildProcessStats usage execMicros))
      else
        match st.signal with
        | some s =>
          if s = 9 ∨ s = 15 then ([], .error (.Timeout timeoutSecs))
          else ([], .error (.Sandbox (exitFailureMsg st err)))
        | none => ([], .error (.Sandbox (exitFailureMsg st err)))

/-- `ExecutionResult` from `types.rs` lines 93-103. -/
structure ExecutionResult where
  status : ExecutionStatus
  stdout : String
  stderr : String
  process_stats : ProcessStats
deriving DecidableEq, Repr

/-- The result wrapping of `CodeExecutor::execute`, `executor.rs` lines
104-127: a sandbox `Ok((stdout, stderr, stats))` becomes an
`ExecutionResult` with status `Success`; every error propagates. -/
def codeExecutorWrap (r : Except Error (String × String × ProcessStats)) :
    Except Error ExecutionResult :=
  match r with
  | .error e => .error e
  | .ok (out, err, stats) =>
    .ok { status := .Success, stdout := out, stderr := err, process_stats := stats }

/-! ### Child environment construction (`sandbox.rs` lines 117-131)

`Command` keeps the child environment as a map from names to values in
which a later `env` call overrides an earlier binding for the same name.
The map is modelled extensionally as `String → Option String`.  The code
calls `.env_clear()` (start from the empty map), `.envs(env)` (insert
every caller pair in order), `.env("PATH", …)` and `.env("HOME", root
+ "/home")`. -/

/-- The empty environment after `env_clear()`. -/
def envClear : String → Option String := fun _ => none

/-- Insert one binding, overriding any earlier one of the same name. -/
def envSet (m : String → Option String) (k v : String) : String → Option String :=
  fun k2 => if k2 = k then some v else m k2

/-- `envs(env)`: insert all caller pairs in order (later pairs win). -/
def envsOf (env : List (String × String)) : String → Option String :=
  env.foldl (fun m kv => envSet m kv.1 kv.2) envClear

/-- The minimal PATH installed by the sandbox (`sandbox.rs` line 122). -/
def sandboxPath : String := "/usr/bin:/bin:/usr/sbin:/sbin"

/-- The full child environment built by `Sandbox::execute` for a caller
environment `env` and a sandbox root `root`. -/
def childEnvMap (env : List (String × String)) (root : String) :
    String → Option String :=
  envSet (envSet (envsOf env) "PATH" sandboxPath) "HOME" (root ++ "/home")

/-! ### Language tags and the HTTP surface -/

/-- `Language` from `types.rs` lines 10-16. -/
inductive Language
  | python
  | javascript
  | typescript
  | rust
  | go
deriving DecidableEq, Repr

/-- `Language::from_str`, `types.rs` lines 18-31: exact match on the five
lowercase tags, otherwise `Err(format!("Unsupported language: {}", s))`. -/
def Language.from_str (s : String) : Except String Language :=
  if s = "python" then .ok .python
  else if s = "javascript" then .ok .javascript
  else if s = "typescript" then .ok .typescript
  else if s = "rust" then .ok .rust
  else if s = "go" then .ok .go
  else .error ("Unsupported language: " ++ s)

/-- The `ExecuteResponse` record of `code-exec/src/server.rs` lines 21-28. -/
structure ExecuteResponse where
  stdout : String
  stderr : String
  status : String
  execution_time : Nat
  memory_usage : Nat
deriving DecidableEq, Repr

/-- The response built by the `/execute` route when the language tag fails
to parse, `server.rs` lines 53-61. -/
def serverInvalidLanguageResponse : ExecuteResponse :=
  { stdout := "", stderr := "Invalid language", status := "error"
    execution_time := 0, memory_usage := 0 }

/-- The response built by the `/execute` route when the service returns an
error, `server.rs` lines 85-94: stderr carries the error display string
and the status string is the literal `"error"`. -/
def serverErrorResponse (e : Error) : ExecuteResponse :=
  { stdout := "", stderr := e.toStr, status := "error"
    execution_time := 0, memory_usage := 0 }

/-! ### Language-pipeline stage contracts used by the claims -/

/-- `CodeExecutor::write_source_file`, `executor.rs` lines 129-138: the
source is written to `<root>/tmp/source.<extension>`. -/
def write_source_file (root extension : String) : String :=
  root ++ "/tmp/" ++ ("source." ++ extension)

/-- `RustExecutor::compile`, `languages/rust.rs` lines 112-131: the build
outcome classification.  A failed `cargo build --release` yields
`Error::CompilationError("Cargo build failed")`. -/
def rustCompileResult (buildExitSuccess : Bool) : Except Error Unit :=
  if buildExitSuccess then .ok ()
  else .error (.CompilationError "Cargo build failed")

/-- Where `RustExecutor::compile` moves the caller's source
(`languages/rust.rs` line 114). -/
def rustCompileDest (sandboxDir : String) : String :=
  sandboxDir ++ "/src/main.rs"

/-- The deterministic parts of `PythonExecutor::compile`,
`languages/python.rs` lines 103-124: the destination of the
`fs::rename`, and the command/arguments of the syntax check. -/
structure PyCompilePlan where
  moveDest : String
  checkCmd : String
  checkArgs : List String
deriving DecidableEq, Repr

/-- `PythonExecutor::compile` moves the source to `<root>/tmp/main.py`
and byte-compiles it with the virtual-env interpreter. -/
def pythonCompilePlan (sandboxDir : String) : PyCompilePlan :=
  { moveDest := sandboxDir ++ "/tmp/main.py"
    checkCmd := sandboxDir ++ "/venv/bin/python3"
    checkArgs := ["-m", "py_compile", "tmp/main.py"] }

/-- `PythonExecutor::run_command`, `languages/python.rs` lines 32-34. -/
def pythonRunCmd : String := "python3"

/-- `PythonExecutor::run_args`, `languages/python.rs` lines 36-41. -/
def pythonRunArgs : List String :=
  ["-c", "import sys; sys.path.append(\x27tmp\x27); import main"]

/-! ### Rust dependency analyzer (`code-exec/ldm/src/analyzer/rust.rs`)

The two regexes of the analyzer are embedded as character-list scanners.

* `version_re` is `//\s*cargo-version:\s*([a-zA-Z0-9_-]+)\s*=\s*"([0-9.]+)"`
  and is scanned over the whole text (`captures_iter`).  A match of this
  pattern can never overlap another one (its interior contains no second
  `//`), so collecting a match attempt at every starting position yields
  exactly the `captures_iter` matches.
* `use_re` is anchored (`(?m)^`), so match attempts happen at the start
  of the text and after every newline.  `captures_iter` is
  non-overlapping, while the model attempts every line start; the only
  divergence is that a leading-`[\s\n]*` match spanning several line
  starts is reported once per line start — a duplicate that the
  `HashSet` output of the analyzer collapses anyway, so the resulting
  package set is identical. -/

/-- Rust-regex `\s`: space, tab, newline, vertical tab, form feed, CR. -/
def isWsChar (c : Char) : Bool :=
  c = ' ' || c = '\t' || c = '\n' || c = '\r' ||
    c = Char.ofNat 11 || c = Char.ofNat 12

/-- Character class `[a-zA-Z0-9_]` (crate identifier). -/
def isIdentChar (c : Char) : Bool := c.isAlphanum || c = '_'

/-- Character class `[a-zA-Z0-9_-]` (package name in a version comment). -/
def isNameChar (c : Char) : Bool := c.isAlphanum || c = '_' || c = '-'

/-- Character class `[0-9.]` (version string). -/
def isVerChar (c : Char) : Bool := c.isDigit || c = '.'

/-- Character class `[a-zA-Z0-9_:,\s{}\[\]]` (path components after `::`). -/
def isPathChar (c : Char) : Bool :=
  c.isAlphanum || c = '_' || c = ':' || c = ',' || isWsChar c ||
    c = Char.ofNat 123 || c = Char.ofNat 125 || c = '[' || c = ']'

/-- Drop leading `\s*`. -/
def dropWs (cs : List Char) : List Char := cs.dropWhile isWsChar

/-- Match a literal, returning the rest on success. -/
def litP (pat : List Char) (cs : List Char) : Option (List Char) :=
  if pat.isPrefixOf cs then some (cs.drop pat.length) else none

/-- Boolean string-prefix test over the character lists. -/
def strStartsWith (s pre : String) : Bool := pre.data.isPrefixOf s.data

/-- Attempt `version_re` at the given position; on success return the two
captures (package name, version). -/
def matchVersionAt (cs : List Char) : Option (String × String) := do
  let cs ← litP "//".data cs
  let cs := dropWs cs
  let cs ← litP "cargo-version:".data cs
  let cs := dropWs cs
  let name := cs.takeWhile isNameChar
  if name.isEmpty then none else do
  let cs := cs.drop name.length
  let cs := dropWs cs
  let cs ← litP "=".data cs
  let cs := dropWs cs
  let cs ← litP "\"".data cs
  let ver := cs.takeWhile isVerChar
  if ver.isEmpty then none else do
  let cs := cs.drop ver.length
  let _ ← litP "\"".data cs
  some (String.mk name, String.mk ver)

/-- All `version_re` captures, in match order. -/
def versionMatches : List Char → List (String × String)
  | [] => []
  | c :: rest =>
    (match matchVersionAt (c :: rest) with
     | some p => [p]
     | none => []) ++ versionMatches rest

/-- Lookup in which a later pair overrides an earlier one of the same
key: the `HashMap::insert` iteration that builds `explicit_versions`. -/
def assocLast (ps : List (String × String)) (k : String) : Option String :=
  ps.foldl (fun acc p => if p.1 = k then some p.2 else acc) none

/-- First-match lookup (`HashMap::get` over a table with distinct keys). -/
def lookupFirst (ps : List (String × String)) (k : String) : Option String :=
  (ps.find? (fun p => p.1 == k)).map (fun p => p.2)

/-- The suffixes of the text that start right after a newline. -/
def lineStartsAux : List Char → List (List Char)
  | [] => []
  | c :: rest => (if c = '\n' then [rest] else []) ++ lineStartsAux rest

/-- All positions where `(?m)^` matches: the start of the text and the
position after every newline. -/
def lineStarts (cs : List Char) : List (List Char) := cs :: lineStartsAux cs

/-- The `use` alternative of `use_re` (after the leading `[\s\n]*`):
`use\s+([a-zA-Z0-9_]+)(?:::[a-zA-Z0-9_:,\s{}\[\]]+)?\s*;`, returning the
base-crate capture. -/
def matchUseCore (cs : List Char) : Option String := do
  let cs ← litP "use".data cs
  let ws := cs.takeWhile isWsChar
  if ws.isEmpty then none else do
  let cs := cs.drop ws.length
  let ident := cs.takeWhile isIdentChar
  if ident.isEmpty then none else do
  let cs := cs.drop ident.length
  let cs ← (match litP "::".data cs with
    | some cs2 =>
      let path := cs2.takeWhile isPathChar
      if path.isEmpty then none else some (cs2.drop path.length)
    | none => some cs)
  let cs := dropWs cs
  let _ ← litP ";".data cs
  some (String.mk ident)

/-- The `extern crate` alternative of `use_re`:
`extern\s+crate\s+([a-zA-Z0-9_]+)\s*;`, returning the crate capture. -/
def matchExternCore (cs : List Char) : Option String := do
  let cs ← litP "extern".data cs
  let ws := cs.takeWhile isWsChar
  if ws.isEmpty then none else do
  let cs := cs.drop ws.length
  let cs ← litP "crate".data cs
  let ws2 := cs.takeWhile isWsChar
  if ws2.isEmpty then none else do
  let cs := cs.drop ws2.length
  let ident := cs.takeWhile isIdentChar
  if ident.isEmpty then none else do
  let cs := cs.drop ident.length
  let cs := dropWs cs
  let _ ← litP ";".data cs
  some (String.mk ident)

/-- Attempt `use_re` at a line start: skip `[\s\n]*`, then try the two
alternatives in regex order. -/
def matchUseAt (cs : List Char) : Option String :=
  let cs0 := dropWs cs
  match matchUseCore cs0 with
  | some n => some n
  | none => matchExternCore cs0

/-- The base-crate names captured by `use_re` over the source text. -/
def useCrates (src : String) : List String :=
  (lineStarts src.data).filterMap matchUseAt

/-- The `known_crates` alias table of `get_canonical_crate_name`
(`analyzer/rust.rs` lines 48-63). -/
def knownCrates : List (String × String) :=
  [("serde_json", "serde_json"), ("tokio_test", "tokio_test"),
   ("lambda_runtime", "lambda_runtime"),
   ("aws_config", "aws-config"), ("aws_sdk_lambda", "aws-sdk-lambda"),
   ("aws_sdk_s3", "aws-sdk-s3"), ("aws_sdk_dynamodb", "aws-sdk-dynamodb"),
   ("serde", "serde"), ("tokio", "tokio"), ("async_trait", "async-trait"),
   ("futures", "futures")]

/-- The default-version pin table of `initialize_default_versions`
(`analyzer/rust.rs` lines 84-125). -/
def defaultVersions : List (String × String) :=
  [("aws-config", "0.55"), ("aws-sdk-lambda", "0.28"), ("aws-sdk-s3", "0.28"),
   ("aws-sdk-dynamodb", "0.28"), ("lambda_runtime", "0.8"),
   ("tokio", "1.28"), ("async-trait", "0.1"), ("futures", "0.3"),
   ("axum", "0.6"), ("reqwest", "0.11"), ("hyper", "0.14"), ("tower", "0.4"),
   ("serde", "1.0"), ("serde_json", "1.0"),
   ("sqlx", "0.7"), ("mongodb", "2.5"), ("redis", "0.23"),
   ("chrono", "0.4"), ("uuid", "1.3"), ("tracing", "0.1"),
   ("anyhow", "1.0"), ("thiserror", "1.0"),
   ("tokio_test", "0.4"), ("mockall", "0.11")]

/-- `name.replace('_', "-")`. -/
def replaceUnderscores (n : String) : String :=
  String.mk (n.data.map (fun c => if c = '_' then '-' else c))

/-- `RustAnalyzer::get_canonical_crate_name` (`analyzer/rust.rs` lines
46-82): exact alias-table match first, then a name already in the
default-version table is kept, then `aws_`-prefixed names are
hyphenated, everything else is preserved. -/
def get_canonical_crate_name (name : String) : String :=
  match lookupFirst knownCrates name with
  | some canonical => canonical
  | none =>
    if (lookupFirst defaultVersions name).isSome then name
    else if strStartsWith name "aws_" then replaceUnderscores name
    else name

/-- `RustAnalyzer::is_std_import` (`analyzer/rust.rs` lines 127-129). -/
def is_std_import (importPath : String) : Bool := strStartsWith importPath "std::"

/-- `RustAnalyzer::get_default_version` (`analyzer/rust.rs` lines
131-136): the pin table, with fallback `"0.1"`. -/
def get_default_version (package_name : String) : String :=
  (lookupFirst defaultVersions package_name).getD "0.1"

/-- `PackageSource` from `ldm/src/types.rs`. -/
inductive PackageSource
  | System
  | Custom (s : String)
deriving DecidableEq, Repr

/-- `Package` from `ldm/src/types.rs`. -/
structure Package where
  name : String
  version : Option String
  source : PackageSource
deriving DecidableEq, Repr

/-- `HashSet::insert`: the output set as a duplicate-free list. -/
def insertNew (l : List Package) (p : Package) : List Package :=
  if p ∈ l then l else l ++ [p]

/-- The package built for one captured crate name (`analyzer/rust.rs`
lines 174-185): canonical name, explicit version if one was declared for
the canonical name, otherwise the default version. -/
def packageOf (explicit : List (String × String)) (crate : String) : Package :=
  let canonical := get_canonical_crate_name crate
  { name := canonical
    version := some ((assocLast explicit canonical).getD
      (get_default_version canonical))
    source := .Custom "cargo" }

/-- `RustAnalyzer::analyze_dependencies` (`analyzer/rust.rs` lines
154-190): collect the explicit version declarations, then for every
`use_re` capture that is not a std import emit the corresponding
package into the output set. -/
def analyze_dependencies (source_code : String) : List Package :=
  let explicit := versionMatches source_code.data
  (useCrates source_code).foldl
    (fun acc crate =>
      if is_std_import crate then acc
      else insertNew acc (packageOf explicit crate))
    []

/-- A sample Rust source with an explicit inline version declaration and a
matching `use` statement. -/
def rustSample : String :=
  "// cargo-version: tokio = \"1.25\"\nuse tokio::runtime;\nfn main() \x7b\x7d"

/-- A rusage sample with all fields zero. -/
def zeroUsage : Rusage := ⟨0, 0, 0, 0, 0, 0, 0, 0, 0, 0, 0⟩

/-! ## Theorems -/

/-- Helper: membership in the analyzer fold.  Every package of the output
is either already in the accumulator or is `packageOf explicit c` for
some captured crate `c`. -/
theorem mem_analyze_fold (explicit : List (String × String))
    (crates : List String) (acc : List Package) (p : Package)
    (h : p ∈ crates.foldl
      (fun acc crate =>
        if is_std_import crate then acc
        else insertNew acc (packageOf explicit crate)) acc) :
    p ∈ acc ∨ ∃ c, p = packageOf explicit c := by
  induction crates generalizing acc with
  | nil => exact Or.inl h
  | cons c cs ih =>
    rcases ih _ h with h1 | h2
    · by_cases hstd : is_std_import c
      · simp only [hstd, if_pos] at h1
        exact Or.inl h1
      · simp only [hstd, if_neg, Bool.false_eq_true, not_false_iff] at h1
        unfold insertNew at h1
        split at h1
        · exact Or.inl h1
        · rcases List.mem_append.mp h1 with h3 | h3
          · exact Or.inl h3
          · exact Or.inr ⟨c, (List.mem_singleton.mp h3)⟩
    · exact Or.inr h2

/-- C8: for every source text, every package emitted by the Rust
dependency analyzer carries a version chosen with the stable precedence
explicit inline `// cargo-version:` declaration (for the canonical
package name) over the default-version pin table over the fallback pin
`"0.1"`. -/
theorem c8_version_precedence (src : String) (p : Package)
    (hp : p ∈ analyze_dependencies src) :
    (∃ v, assocLast (versionMatches src.data) p.name = some v ∧
      p.version = some v)
    ∨ (assocLast (versionMatches src.data) p.name = none ∧
        ∃ v, lookupFirst defaultVersions p.name = some v ∧ p.version = some v)
    ∨ (assocLast (versionMatches src.data) p.name = none ∧
        lookupFirst defaultVersions p.name = none ∧ p.version = some "0.1") := by
  unfold analyze_dependencies at hp
  rcases mem_analyze_fold _ _ _ _ hp with h | ⟨c, rfl⟩
  · simp at h
  · have hname : (packageOf (versionMatches src.data) c).name =
        get_canonical_crate_name c := rfl
    have hver : (packageOf (versionMatches src.data) c).version =
        some ((assocLast (versionMatches src.data)
          (get_canonical_crate_name c)).getD
            (get_default_version (get_canonical_crate_name c))) := rfl
    rw [hname, hver]
    rcases h1 : assocLast (versionMatches src.data)
        (get_canonical_crate_name c) with _ | v
    · rcases h2 : lookupFirst defaultVersions
          (get_canonical_crate_name c) with _ | w
      · exact Or.inr (Or.inr ⟨rfl, rfl, by
          simp [get_default_version, h2]⟩)
      · exact Or.inr (Or.inl ⟨rfl, w, rfl, by
          simp [get_default_version, h2]⟩)
    · exact Or.inl ⟨v, rfl, by simp⟩

/-- C8 witness: a Rust source containing `// cargo-version: tokio =
"1.25"` and `use tokio::runtime;` yields the package `tokio` at version
`1.25`, and the emitted version satisfies the precedence property (here
through the explicit tier, overriding the `1.28` default pin). -/
theorem c8_version_precedence_witness :
    (Package.mk "tokio" (some "1.25") (.Custom "cargo") ∈
      analyze_dependencies rustSample)
    ∧ lookupFirst defaultVersions "tokio" = some "1.28"
    ∧ ((∃ v, assocLast (versionMatches rustSample.data)
          (Package.mk "tokio" (some "1.25") (.Custom "cargo")).name = some v ∧
          (Package.mk "tokio" (some "1.25") (.Custom "cargo")).version = some v)
      ∨ (assocLast (versionMatches rustSample.data)
            (Package.mk "tokio" (some "1.25") (.Custom "cargo")).name = none ∧
          ∃ v, lookupFirst defaultVersions
              (Package.mk "tokio" (some "1.25") (.Custom "cargo")).name = some v ∧
            (Package.mk "tokio" (some "1.25") (.Custom "cargo")).version = some v)
      ∨ (assocLast (versionMatches rustSample.data)
            (Package.mk "tokio" (some "1.25") (.Custom "cargo")).name = none ∧
          lookupFirst defaultVersions
              (Package.mk "tokio" (some "1.25") (.Custom "cargo")).name = none ∧
          (Package.mk "tokio" (some "1.25") (.Custom "cargo")).version =
            some "0.1")) :=
  ⟨by decide, by decide,
    c8_version_precedence rustSample
      (Package.mk "tokio" (some "1.25") (.Custom "cargo")) (by decide)⟩

/-- C1: the execution result wrapped by `CodeExecutor::execute` has
status `Success` whenever it exists, and it exists exactly when the
child exited with code 0 and the post-mortem resource-cap check did not
report any cap as exceeded. -/
theorem c1_success_iff_exit_zero_and_caps_ok (p : Platform)
    (l : ResourceLimits) (cid : Option Nat) (t : Nat) (oc : WaitOutcome)
    (e : Nat) (u : Rusage) (em : Nat) :
    (∀ res, codeExecutorWrap (sandboxExecuteResult p l cid t oc e u em).2 =
        .ok res → res.status = .Success)
    ∧ ((codeExecutorWrap (sandboxExecuteResult p l cid t oc e u em).2).isOk =
        true ↔
      ∃ out err, oc = .completed (.exited 0) out err ∧
        check_resource_usage p (some e) u.max_rss l = .ok ()) := by
  constructor
  · intro res hres
    cases oc with
    | timedOut =>
      cases cid <;> simp [sandboxExecuteResult, codeExecutorWrap] at hres
    | procError m => simp [sandboxExecuteResult, codeExecutorWrap] at hres
    | completed st out err =>
      rcases hchk : check_resource_usage p (some e) u.max_rss l with ex | ⟨⟩
      · simp [sandboxExecuteResult, hchk, codeExecutorWrap] at hres
      · by_cases hs : st.success
        · simp [sandboxExecuteResult, hchk, hs, codeExecutorWrap] at hres
          rw [← hres]
        · rcases hsig : st.signal with _ | s
          · simp [sandboxExecuteResult, hchk, hs, hsig, codeExecutorWrap]
              at hres
          · by_cases h915 : s = 9 ∨ s = 15 <;>
              simp [sandboxExecuteResult, hchk, hs, hsig, h915,
                codeExecutorWrap] at hres
  · constructor
    · intro hok
      cases oc with
      | timedOut =>
        cases cid <;>
          simp [sandboxExecuteResult, codeExecutorWrap, Except.isOk, Except.toBool] at hok
      | procError m =>
        simp [sandboxExecuteResult, codeExecutorWrap, Except.isOk, Except.toBool] at hok
      | completed st out err =>
        rcases hchk : check_resource_usage p (some e) u.max_rss l with ex | ⟨⟩
        · simp [sandboxExecuteResult, hchk, codeExecutorWrap, Except.isOk,
            Except.toBool] at hok
        · by_cases hs : st.success
          · refine ⟨out, err, ?_, rfl⟩
            cases st with
            | exited c =>
              have : c = 0 := by
                by_contra hc
                simp [ExitStatus.success, hc] at hs
              rw [this]
            | signaled s => simp [ExitStatus.success] at hs
          · rcases hsig : st.signal with _ | s
            · simp [sandboxExecuteResult, hchk, hs, hsig, codeExecutorWrap,
                Except.isOk, Except.toBool] at hok
            · by_cases h915 : s = 9 ∨ s = 15 <;>
                simp [sandboxExecuteResult, hchk, hs, hsig, h915,
                  codeExecutorWrap, Except.isOk, Except.toBool] at hok
    · rintro ⟨out, err, rfl, hchk⟩
      simp [sandboxExecuteResult, hchk, ExitStatus.success, codeExecutorWrap,
        Except.isOk, Except.toBool]

/-- C1 witness: a child that exits 0 within the caps produces an `Ok`
execution result (whose status, by the theorem, is `Success`). -/
theorem c1_success_iff_exit_zero_and_caps_ok_witness :
    (codeExecutorWrap (sandboxExecuteResult .linux
      ResourceLimits.default none 5 (.completed (.exited 0) "hi" "") 1
      zeroUsage 0).2).isOk = true :=
  (c1_success_iff_exit_zero_and_caps_ok .linux ResourceLimits.default none 5
    (.completed (.exited 0) "hi" "") 1 zeroUsage 0).2.mpr
    ⟨"hi", "", rfl, by decide⟩

/-- C2: the child environment built by `Sandbox::execute` maps `HOME` to
`<root>/home`, `PATH` to the fixed minimal path, every other name to the
caller-supplied binding, and is defined on no other name (nothing leaks
from the host). -/
theorem c2_child_env_exact (env : List (String × String)) (root k : String) :
    (childEnvMap env root k =
      if k = "HOME" then some (root ++ "/home")
      else if k = "PATH" then some sandboxPath
      else envsOf env k)
    ∧ ((childEnvMap env root k).isSome = true ↔
        (k = "HOME" ∨ k = "PATH" ∨ (envsOf env k).isSome = true)) := by
  constructor
  · unfold childEnvMap envSet
    split_ifs <;> simp_all
  · unfold childEnvMap envSet
    split_ifs <;> simp_all

/-- C3: on the timeout path with a known child id, the supervisor sends
signal 15 (TERM), sleeps 10 ms, sends signal 9 (KILL) — in that order —
and returns `Error::Timeout` carrying the caller's timeout in seconds. -/
theorem c3_timeout_sequence (p : Platform) (l : ResourceLimits)
    (pid t e em : Nat) (u : Rusage) :
    sandboxExecuteResult p l (some pid) t .timedOut e u em =
      ([SupAction.sendSignal pid 15, SupAction.sleepMs 10,
        SupAction.sendSignal pid 9], .error (.Timeout t)) := rfl

/-- C4 counterexample: a child that exits with code 1 (no signal) while
the CPU cap is exceeded does *not* yield the non-zero-exit `Sandbox`
error the claim demands — the call returns `ResourceExceeded` instead,
because the cap check runs first. -/
theorem c4_counterexample :
    (ExitStatus.exited 1).success = false
    ∧ (ExitStatus.exited 1).signal = none
    ∧ (sandboxExecuteResult .linux ⟨1, 536870912, 104857600, 10, 10485760⟩
        none 10 (.completed (.exited 1) "" "boom") 5 zeroUsage 0).2 =
      .error (.ResourceExceeded "CPU time limit exceeded: 5 > 1")
    ∧ Error.isSandbox (.ResourceExceeded "CPU time limit exceeded: 5 > 1") =
      false
    ∧ Error.isTimeoutErr
        (.ResourceExceeded "CPU time limit exceeded: 5 > 1") = false := by
  refine ⟨rfl, rfl, by decide, rfl, rfl⟩

/-- C4 (amended): for a child that completes with a non-zero exit status
before the timeout fires *and whose post-mortem resource-cap check
passes*, the call returns the `Timeout` error when the child was killed
by signal 9 or 15, and otherwise the `Sandbox` error whose message
carries the exit status and the captured stderr. -/
theorem c4_nonzero_exit_classification (p : Platform) (l : ResourceLimits)
    (cid : Option Nat) (t : Nat) (st : ExitStatus) (out err : String)
    (e em : Nat) (u : Rusage)
    (hchk : check_resource_usage p (some e) u.max_rss l = .ok ())
    (hfail : st.success = false) :
    (∀ s, st.signal = some s → (s = 9 ∨ s = 15) →
      (sandboxExecuteResult p l cid t (.completed st out err) e u em).2 =
        .error (.Timeout t))
    ∧ (∀ s, st.signal = some s → ¬(s = 9 ∨ s = 15) →
      (sandboxExecuteResult p l cid t (.completed st out err) e u em).2 =
        .error (.Sandbox (exitFailureMsg st err)))
    ∧ (st.signal = none →
      (sandboxExecuteResult p l cid t (.completed st out err) e u em).2 =
        .error (.Sandbox (exitFailureMsg st err))) := by
  refine ⟨?_, ?_, ?_⟩
  · intro s hsig h915
    simp [sandboxExecuteResult, hchk, hfail, hsig, h915]
  · intro s hsig h915
    simp [sandboxExecuteResult, hchk, hfail, hsig, h915]
  · intro hsig
    simp [sandboxExecuteResult, hchk, hfail, hsig]

/-- C4 witness: a child killed by signal 9 within the caps is classified
as `Timeout` carrying the caller's timeout value. -/
theorem c4_nonzero_exit_classification_witness :
    (sandboxExecuteResult .linux ResourceLimits.default none 7
      (.completed (.signaled 9) "" "") 0 zeroUsage 0).2 =
      .error (.Timeout 7) :=
  (c4_nonzero_exit_classification .linux ResourceLimits.default none 7
    (.signaled 9) "" "" 0 0 zeroUsage (by decide) rfl).1 9 rfl (Or.inl rfl)

/-- C5: the post-mortem check passes on Linux exactly when both the
elapsed CPU seconds (cast to `u32`) and the children max-RSS (KB,
converted to bytes with `u64` arithmetic) are within their caps; on
macOS the RSS comparison is skipped by an explicit branch and only the
CPU comparison remains; every failure is a `ResourceExceeded` error. -/
theorem c5_resource_check_semantics (e : Nat) (rss : Int)
    (l : ResourceLimits) :
    (check_resource_usage .linux (some e) rss l = .ok () ↔
      (e % 2 ^ 32 ≤ l.cpu_time ∧ u64ofI64 rss * 1024 % 2 ^ 64 ≤ l.memory))
    ∧ (check_resource_usage .macos (some e) rss l = .ok () ↔
        e % 2 ^ 32 ≤ l.cpu_time)
    ∧ (∀ p : Platform, check_resource_usage p (some e) rss l = .ok ()
        ∨ ∃ m, check_resource_usage p (some e) rss l =
            .error (.ResourceExceeded m)) := by
  refine ⟨?_, ?_, ?_⟩
  · simp only [check_resource_usage, check_memory_usage]
    split_ifs with h1 h2 <;> simp <;> omega
  · simp only [check_resource_usage, check_memory_usage]
    split_ifs with h1 <;> simp <;> omega
  · intro p
    cases p <;> simp only [check_resource_usage, check_memory_usage] <;>
      split_ifs <;>
      first
        | exact Or.inl rfl
        | exact Or.inr ⟨_, rfl⟩

/-- C10: the post-mortem resource-cap check runs before the exit status
is inspected: for every non-timeout completion — whatever the exit
status, including non-zero exits — a failing cap check makes
`Sandbox::execute` return that `ResourceExceeded` error. -/
theorem c10_cap_check_precedes_exit_classification (p : Platform)
    (l : ResourceLimits) (cid : Option Nat) (t : Nat) (st : ExitStatus)
    (out err : String) (e em : Nat) (u : Rusage) (ex : Error)
    (h : check_resource_usage p (some e) u.max_rss l = .error ex) :
    (sandboxExecuteResult p l cid t (.completed st out err) e u em).2 =
      .error ex := by
  simp [sandboxExecuteResult, h]

/-- C10 witness: a child that exits 1 *and* exceeds the CPU cap yields
the `ResourceExceeded` error, not the non-zero-exit `Sandbox` error. -/
theorem c10_cap_check_precedes_exit_classification_witness :
    (sandboxExecuteResult .linux ResourceLimits.default none 9
      (.completed (.exited 1) "" "err") 31 zeroUsage 0).2 =
      .error (.ResourceExceeded "CPU time limit exceeded: 31 > 30") :=
  c10_cap_check_precedes_exit_classification .linux ResourceLimits.default
    none 9 (.exited 1) "" "err" 31 0 zeroUsage
    (.ResourceExceeded "CPU time limit exceeded: 31 > 30") (by decide)

/-- C6: a non-zero pipeline compile exit produces
`Error::CompilationError`, but the server's error branch delivers the
literal status string `"error"` — not the `"compilation_error"`
serialization of `ExecutionStatus::CompilationError`, which no code path
constructs.  The stderr delivered is the error display string, which is
non-empty. -/
theorem c6_compile_failure_surfaces_as_generic_error :
    rustCompileResult false = .error (.CompilationError "Cargo build failed")
    ∧ serverErrorResponse (.CompilationError "Cargo build failed") =
      { stdout := "", stderr := "Compilation failed: Cargo build failed",
        status := "error", execution_time := 0, memory_usage := 0 }
    ∧ ExecutionStatus.toStr .CompilationError = "compilation_error"
    ∧ (serverErrorResponse (.CompilationError "Cargo build failed")).status ≠
        ExecutionStatus.toStr .CompilationError
    ∧ (serverErrorResponse (.CompilationError "Cargo build failed")).stderr ≠
        "" := by
  refine ⟨rfl, by decide, rfl, by decide, by decide⟩

/-- C7 counterexample: language-tag parsing is *not* case-insensitive —
`"Python"` and `"RUST"` are rejected — and the parse error string is
`"Unsupported language: …"` (capitalized), while the cited server route
surfaces parse failures with stderr `"Invalid language"`. -/
theorem c7_counterexample :
    Language.from_str "Python" = .error "Unsupported language: Python"
    ∧ Language.from_str "RUST" = .error "Unsupported language: RUST"
    ∧ Language.from_str "python" = .ok .python
    ∧ serverInvalidLanguageResponse.stderr = "Invalid language" := by
  refine ⟨by decide, by decide, by decide, rfl⟩

/-- C7 (amended): parsing accepts exactly the five lowercase tags
`python`, `javascript`, `typescript`, `rust`, `go`; every other string —
including other casings of the tags — fails with the error
`"Unsupported language: <tag>"`, and the server route surfaces a parse
failure as status `"error"` (with stderr `"Invalid language"`). -/
theorem c7_language_parsing (s : String) :
    ((Language.from_str s).isOk = true ↔
      (s = "python" ∨ s = "javascript" ∨ s = "typescript" ∨ s = "rust" ∨
        s = "go"))
    ∧ ((Language.from_str s).isOk = false →
        Language.from_str s = .error ("Unsupported language: " ++ s))
    ∧ serverInvalidLanguageResponse.status = "error"
    ∧ serverInvalidLanguageResponse.stderr = "Invalid language" := by
  refine ⟨?_, ?_, rfl, rfl⟩
  · unfold Language.from_str
    split_ifs <;> simp_all [Except.isOk, Except.toBool]
  · unfold Language.from_str
    split_ifs <;> simp_all [Except.isOk, Except.toBool]

/-- C7 witness: the unknown tag `"ruby"` fails with the
`"Unsupported language: …"` error. -/
theorem c7_language_parsing_witness :
    Language.from_str "ruby" = .error ("Unsupported language: " ++ "ruby") :=
  (c7_language_parsing "ruby").2.1 (by decide)

/-- C9 counterexample: the Python compile stage moves the caller's source
to `tmp/main.py` — not to a canonical `source.py` — and the run stage
invokes the host `python3` with a `-c` import shim rather than the
virtual-env interpreter on `source.py`. -/
theorem c9_counterexample :
    (pythonCompilePlan "/sandbox").moveDest = "/sandbox/tmp/main.py"
    ∧ (pythonCompilePlan "/sandbox").moveDest ≠ "/sandbox/source.py"
    ∧ pythonRunCmd = "python3"
    ∧ pythonRunCmd ≠ "/sandbox/venv/bin/python3"
    ∧ "source.py" ∉ pythonRunArgs
    ∧ (pythonCompilePlan "/sandbox").checkCmd = "/sandbox/venv/bin/python3" := by
  refine ⟨rfl, by decide, rfl, by decide, by decide, rfl⟩

/-- C9 (amended): for every python-tag request the compile stage moves
the caller's source (written as `tmp/source.py`) to `tmp/main.py` inside
the sandbox and byte-compiles it with the virtual-env interpreter
`venv/bin/python3`; the run stage executes the host `python3` with a
`-c` program that appends `tmp` to the module path and imports `main`. -/
theorem c9_python_entry_point (d : String) :
    pythonCompilePlan d =
      { moveDest := d ++ "/tmp/main.py", checkCmd := d ++ "/venv/bin/python3",
        checkArgs := ["-m", "py_compile", "tmp/main.py"] }
    ∧ pythonRunCmd = "python3"
    ∧ pythonRunArgs =
        ["-c", "import sys; sys.path.append(\x27tmp\x27); import main"]
    ∧ write_source_file "/sandbox" "py" = "/sandbox/tmp/source.py" := by
  refine ⟨rfl, rfl, rfl, by decide⟩

end CodeExec
